import Mathlib

/-!
Verification development for the `fluff` indicator-calculation and diff engine
(`src/fluff/__init__.py`).  The Python source is shallowly embedded below:

* emitter normalization and validation (`base_emitter.__call__`,
  `custom_date_emitter.validate`, `custom_null_emitter.validate`);
* calculator construction (`Calculator.__init__`) and the windowed query /
  aggregation paths (`Calculator.get_result`, `Calculator.aggregate_results`);
* the snapshot diff engine (`IndicatorDocument.diff`,
  `IndicatorDocument._shallow_dict_diff`, `IndicatorDocument._indicator_diff`,
  `IndicatorDocument._indicator_meta`).

Modelling conventions: Python calendar dates are integers (`Int`); a date
string in `YYYY-MM-DD` form is represented by the date it parses to; Python
dicts are association lists (`List (String × _)`), with dict-key uniqueness
stated explicitly as a well-formedness predicate where a proof needs it;
numeric values are `Int`; `raise` is an `Except` error or an `Option.none`
result.
-/

namespace Fluff

/-! ### Emitter kinds and declarations

`base_emitter.fluff_emitter` is `'date'` for `custom_date_emitter` and
`'null'` for `custom_null_emitter`; these are the only two emitter classes in
the source.  `reduce_type` is one of `REDUCE_TYPES` (asserted in
`base_emitter.__init__`, not needed by any claim). -/

inductive EmitterKind
  | date
  | null
  deriving DecidableEq, Repr

structure EmitterDef where
  kind : EmitterKind
  reduce_type : String
  deriving DecidableEq, Repr

/-! ### Emitter normalization (`base_emitter.__call__`, lines 27-46)

A raw value yielded by calculator logic is a Python dict, a list pair, or a
bare value.  Bare values and the members of a pair are scalars: a
`datetime.date`, a `datetime.datetime` (carrying a time-of-day component), a
string, or Python `None`. -/

inductive Scalar
  | dateV (d : Int)
  | datetimeV (d : Int) (t : Int)
  | strV (s : String)
  | noneV
  deriving DecidableEq, Repr

/-- The `date` entry of a dict-form raw value: the key may be absent from the
dict, or present and bound to a scalar (possibly `None`). -/
inductive DateField
  | absent
  | val (x : Scalar)
  deriving DecidableEq, Repr

/-- The `group_by` entry of a dict-form raw value: absent, explicitly `None`,
a bare (non-list) scalar, or a list. -/
inductive GroupByField
  | absent
  | null
  | scalar (g : String)
  | list (l : List String)
  deriving DecidableEq, Repr

/-- A raw value yielded by calculator logic: a fully-specified dict (with
`value` possibly absent, modelled as `Option Int`), a `[date_or_key, value]`
pair, or a bare date/identifier. -/
inductive RawValue
  | obj (date : DateField) (value : Option Int) (group_by : GroupByField)
  | pair (fst : Scalar) (snd : Int)
  | bare (x : Scalar)
  deriving DecidableEq, Repr

/-- The dict produced by the shape-normalization step of
`base_emitter.__call__` (before `self.validate` runs): `value` is filled,
`group_by` is `None` or a list, `date` is whatever the raw value carried. -/
structure ShapedValue where
  date : DateField
  value : Int
  group_by : Option (List String)
  deriving DecidableEq, Repr

/-- The canonical emitted value after validation: `date` is a calendar date
for date-kind emitters and `None` for null-kind emitters. -/
structure EmittedValue where
  date : Option Int
  value : Int
  group_by : Option (List String)
  deriving DecidableEq, Repr

/-- A failed `assert` inside `base_emitter.__call__` or an emitter `validate`
(Python `AssertionError`; the spec's `InvalidEmittedValue`). -/
inductive EmitterFailure
  | assertionError
  deriving DecidableEq, Repr

/-- Lines 30-39 of `base_emitter.__call__`: dict branch (default `value` to 1,
assert `group_by` is not `None`, wrap a non-list `group_by` into a singleton
list), list branch (`dict(date=v[0], value=v[1], group_by=None)`), and the
bare-value branch (`dict(date=v, value=1, group_by=None)`). -/
def normalize_shape : RawValue → Except EmitterFailure ShapedValue
  | .obj d v g =>
    match g with
    | .absent => .error .assertionError
    | .null => .error .assertionError
    | .scalar gb => .ok ⟨d, v.getD 1, some [gb]⟩
    | .list l => .ok ⟨d, v.getD 1, some l⟩
  | .pair a b => .ok ⟨.val a, b, none⟩
  | .bare x => .ok ⟨.val x, 1, none⟩

/-- `custom_date_emitter.validate` / `custom_null_emitter.validate`
(lines 52-73): a date-kind emitter requires a non-`None`
`datetime.date`/`datetime.datetime` and truncates a datetime to its calendar
date; a null-kind emitter requires the `date` entry to be absent (then sets it
to `None`) or explicitly `None`. -/
def emitter_validate (kind : EmitterKind) (s : ShapedValue) :
    Except EmitterFailure EmittedValue :=
  match kind with
  | .date =>
    match s.date with
    | .val (.dateV d) => .ok ⟨some d, s.value, s.group_by⟩
    | .val (.datetimeV d _) => .ok ⟨some d, s.value, s.group_by⟩
    | _ => .error .assertionError
  | .null =>
    match s.date with
    | .absent => .ok ⟨none, s.value, s.group_by⟩
    | .val .noneV => .ok ⟨none, s.value, s.group_by⟩
    | _ => .error .assertionError

/-- The full per-value body of the generator returned by
`base_emitter.__call__`: shape normalization followed by the emitter kind's
`validate`. -/
def base_emitter_call (kind : EmitterKind) (v : RawValue) :
    Except EmitterFailure EmittedValue :=
  (normalize_shape v).bind (emitter_validate kind)

/-- Re-inject a canonical emitted value as a dict-form raw value, as happens
when a previously normalized output is fed through the emitter again.  The
normalized dict always carries all three keys (`validate` fills `date` with
`None` for null-kind emitters), so `date` maps to an explicit scalar and a
`None` `group_by` maps to an explicit `None` entry. -/
def toRawValue (v : EmittedValue) : RawValue :=
  .obj
    (match v.date with
     | some d => .val (.dateV d)
     | none => .val .noneV)
    (some v.value)
    (match v.group_by with
     | some l => .list l
     | none => .null)

/-! ### Calculator construction (`Calculator.__init__`, lines 123-132)

A calculator carries a named set of emitters (collected by `CalculatorMeta`
from its own and inherited attributes) and a window.  The effective window is
the constructor argument when given, else the class attribute; it is modelled
as `Option Int` (days), where `some` stands for a `datetime.timedelta` and
`none` for any non-timedelta value (such as the default `None`).  When the
window is not a timedelta and some owned emitter is date-kind, `__init__`
raises `NotImplementedError('window must be timedelta, not %s')` — the
construction-time window error the spec names `InvalidWindowConfiguration`. -/

structure Calculator where
  emitters : List (String × EmitterDef)
  window : Option Int
  deriving DecidableEq, Repr

inductive CalcInitError
  | invalidWindowConfiguration
  deriving DecidableEq, Repr

def Calculator.init (emitters : List (String × EmitterDef)) (window : Option Int) :
    Except CalcInitError Calculator :=
  match window with
  | some w => .ok ⟨emitters, some w⟩
  | none =>
    if emitters.any (fun p => decide (p.2.kind = .date)) then
      .error .invalidWindowConfiguration
    else
      .ok ⟨emitters, none⟩

/-! ### Windowed queries (`Calculator.get_result`, lines 161-204)

The external reduce-capable index (`self.fluff.view('fluff/generic', ...)`)
is a parameter `view : ViewQuery → List ViewRow`.  Key components are the
doc type, the group key, the calculator and emitter slugs, and a trailing
date (per `json_format_date`) or `None`. -/

inductive KeyElem
  | str (s : String)
  | dateKey (d : Int)
  | nullKey
  deriving DecidableEq, Repr

/-- A query against `fluff/generic`: a `startkey`/`endkey` range (with the
`descending` flag set when `start > end`) for date emitters, or an exact
`key` for null emitters. -/
inductive ViewQuery
  | range (startkey endkey : List KeyElem) (descending : Bool)
  | exact (key : List KeyElem)
  deriving DecidableEq, Repr

/-- A row of a view result.  For a reduced query the interesting part is
`row['value'][reduce_type]`, modelled as a lookup function. -/
structure ViewRow where
  id : String
  value : String → Int

/-- `shared_key = [self.fluff._doc_type] + key + [self.slug, emitter_name]`. -/
def shared_key (docType : String) (key : List String) (slug ename : String) :
    List KeyElem :=
  [KeyElem.str docType] ++ key.map KeyElem.str ++ [KeyElem.str slug, KeyElem.str ename]

/-- The view query `get_result` issues for one emitter: for date-kind,
`startkey = shared_key + [start]`, `endkey = shared_key + [now]` with
`start = now - window` and `descending` iff `start > now`; for null-kind, the
exact key `shared_key + [None]`. -/
def emitterQuery (docType : String) (key : List String) (slug ename : String)
    (kind : EmitterKind) (window : Int) (now : Int) : ViewQuery :=
  match kind with
  | .date =>
    .range (shared_key docType key slug ename ++ [.dateKey (now - window)])
      (shared_key docType key slug ename ++ [.dateKey now])
      (decide (now - window > now))
  | .null => .exact (shared_key docType key slug ename ++ [.nullKey])

/-- The `reduce=True` path of `Calculator.get_result`: for every emitter,
issue its query and take `q[0]['value'][emitter._reduce_type]`, or `0` when
the result has no rows (the `IndexError` branch).  `c.window.getD 0` models
`self.window`, which for a date-kind emitter is guaranteed to be a timedelta
by `Calculator.init`.  The source's third branch (unrecognized emitter kind →
`EmitterTypeError`) has no counterpart because `EmitterKind` has exactly the
two recognized constructors. -/
def get_result_reduce (view : ViewQuery → List ViewRow) (docType : String)
    (slug : String) (c : Calculator) (now : Int) (key : List String) :
    List (String × Int) :=
  c.emitters.map (fun p =>
    (p.1,
      match view (emitterQuery docType key slug p.1 p.2.kind (c.window.getD 0) now) with
      | [] => 0
      | r :: _ => r.value p.2.reduce_type))

/-! ### Aggregation across keys (`Calculator.aggregate_results`, lines 206-223)

`iter_results` yields `(slug, value)` pairs for every key in order; the pairs
are folded into a `defaultdict`: integer addition for `reduce=True`, set
union for `reduce=False`.  The per-key result function is a parameter, as in
the source it is `self.get_result(key, reduce=reduce)` against the external
view. -/

def updateSum (acc : String → Int) (p : String × Int) : String → Int :=
  fun s => if s = p.1 then acc s + p.2 else acc s

/-- `aggregate_results(keys, reduce=True)`: fold `results[slug] += value`
over all `(slug, value)` pairs produced key by key, starting from
`defaultdict(int)`. -/
def aggregate_results_sum (get_result : List String → List (String × Int))
    (keys : List (List String)) : String → Int :=
  ((keys.map get_result).flatten).foldl updateSum (fun _ => 0)

def updateIds (acc : String → Finset String) (p : String × List String) :
    String → Finset String :=
  fun s => if s = p.1 then acc s ∪ p.2.toFinset else acc s

/-- `aggregate_results(keys, reduce=False)`: fold `results[slug].update(value)`
over all `(slug, id_list)` pairs produced key by key, starting from
`defaultdict(set)`. -/
def aggregate_results_ids (get_result : List String → List (String × List String))
    (keys : List (List String)) : String → Finset String :=
  ((keys.map get_result).flatten).foldl updateIds (fun _ => ∅)

/-! ### Stored values and the diff engine (`IndicatorDocument.diff` and
helpers, lines 304-457)

A stored emitted value in an indicator document is the dict produced by the
emitter (on the new side: `date` a `datetime.date` or `None`) or its JSON form
(on the persisted side: `date` a `YYYY-MM-DD` string).  `_indicator_diff`'s
inner `NormalizedEmittedValue` also accepts a list pair.  `StoredDate.strD d`
stands for the string that parses (via `strptime '%Y-%m-%d'`) to the calendar
date `d`. -/

inductive StoredDate
  | noneD
  | dateD (d : Int)
  | strD (d : Int)
  deriving DecidableEq, Repr

inductive StoredValue
  | obj (date : StoredDate) (value : Int) (group_by : Option (List String))
  | pair (date : StoredDate) (value : Int)
  deriving DecidableEq, Repr

/-- The `date`-fixing step of `NormalizedEmittedValue.__init__`:
`if self.value['date'] and not isinstance(self.value['date'], datetime.date):
strptime(...)` — `None` is falsy and stays, a date object stays, a date
string is parsed back to its calendar date. -/
def StoredDate.parse : StoredDate → Option Int
  | .noneD => none
  | .dateD d => some d
  | .strD d => some d

/-- `NormalizedEmittedValue.__init__`: keep a dict, turn a pair into
`dict(date=v[0], value=v[1], group_by=None)`, and parse the `date` entry back
into a calendar date when it is truthy and not already a `datetime.date`. -/
def normalizeStored : StoredValue → EmittedValue
  | .obj d v g => ⟨StoredDate.parse d, v, g⟩
  | .pair d v => ⟨StoredDate.parse d, v, none⟩

/-- `NormalizedEmittedValue.__key`: the comparison key
`(date, value, tuple(group_by) if group_by else None)` — an empty or `None`
`group_by` collapses to `None`. -/
def keyOf (v : EmittedValue) : Option Int × Int × Option (List String) :=
  (v.date, v.value,
    match v.group_by with
    | some [] => none
    | some l => some l
    | none => none)

/-- The data of one indicator document, as the diff engine reads it:
per calculator slug, a dict from emitter slug to stored value sequence
(`self[calc_name]`), plus the group-by bookkeeping used for the report
(`group_by_type_map = none` in Python is the empty map here).  The report's
`domains` / `database` / `doc_type` / `group_values` fields are class-level
or plain field reads that no claim mentions and are omitted. -/
structure IndicatorDoc where
  calcs : List (String × List (String × List StoredValue))
  group_names : List String
  group_by_type_map : List (String × String)
  deriving DecidableEq, Repr

/-- Dict-key uniqueness, automatic for Python dicts: calculator slugs are
distinct and each calculator's emitter slugs are distinct. -/
def IndicatorDoc.WF (doc : IndicatorDoc) : Prop :=
  (doc.calcs.map (fun p => p.1)).Nodup ∧
    ∀ p ∈ doc.calcs, (p.2.map (fun q => q.1)).Nodup

/-- `self[calc_name]`: the per-emitter dict of one calculator slot. -/
def dGet (doc : IndicatorDoc) (c : String) : List (String × List StoredValue) :=
  (doc.calcs.lookup c).getD []

/-- `self[calc_name][emitter_name]`: one stored value sequence.  (Under the
docstring's "both documents have the same set of calculators and emitters"
assumption the lookups never miss; the `[]` default is unreachable there.) -/
def vGet (doc : IndicatorDoc) (c e : String) : List StoredValue :=
  ((dGet doc c).lookup e).getD []

/-- `self._calculators.keys()` — the document's slots mirror the statically
declared calculators, so the slug list of `calcs` is the iteration order. -/
def calcNames (doc : IndicatorDoc) : List String :=
  doc.calcs.map (fun p => p.1)

/-- The class-level calculator registry, for `_indicator_meta`'s
`getattr(self._calculators[calc_name], emitter_name)`. -/
abbrev Schema := List (String × List (String × EmitterDef))

def emitterLookup (schema : Schema) (c e : String) : Option EmitterDef :=
  (schema.lookup c).bind (fun l => l.lookup e)

/-- `_shallow_dict_diff(left, right)` (lines 445-457): `None` when both maps
are empty, the non-empty side's keys when exactly one is empty, else
`added | removed | changed` (emitter slugs in exactly one side, or in both
with unequal stored value).  The Python result is an unordered key set used
only for truthiness and iteration; it is returned here as a list. -/
def shallow_dict_diff (left right : List (String × List StoredValue)) :
    Option (List String) :=
  if left.isEmpty && right.isEmpty then
    none
  else if left.isEmpty || right.isEmpty then
    some (if !left.isEmpty then left.map (fun p => p.1) else right.map (fun p => p.1))
  else
    let ls := left.map (fun p => p.1)
    let rs := right.map (fun p => p.1)
    let added := rs.filter (fun k => !ls.any (fun x => decide (x = k)))
    let removed := ls.filter (fun k => !rs.any (fun x => decide (x = k)))
    let changed := ls.filter (fun k =>
      rs.any (fun x => decide (x = k)) && decide (left.lookup k ≠ right.lookup k))
    some (added ++ removed ++ changed)

/-- Lines 349-359 of `diff`: the map from calculator slug to its changed
emitter slugs.  With a previous document, a calculator is included when its
shallow dict diff is truthy (non-`None` and non-empty); with no previous
document, its emitter slugs with truthy (non-empty) value sequences are the
changed ones, and the calculator is included when there is at least one. -/
def diffKeys (self : IndicatorDoc) (other : Option IndicatorDoc) :
    List (String × List String) :=
  (calcNames self).filterMap (fun c =>
    match other with
    | some o =>
      match shallow_dict_diff (dGet self c) (dGet o c) with
      | none => none
      | some ks => if ks.isEmpty then none else some (c, ks)
    | none =>
      let ems := ((dGet self c).filter (fun p => !p.2.isEmpty)).map (fun p => p.1)
      if ems.isEmpty then none else some (c, ems))

/-- Python `set(...)` of `NormalizedEmittedValue`s: membership and equality
are by `__key`, and an element equal (by key) to an already-present one is
not added, so the set keeps the first occurrence of each key. -/
def dedupByKey (l : List EmittedValue) : List EmittedValue :=
  l.foldl
    (fun acc v =>
      if acc.any (fun w => decide (keyOf w = keyOf v)) then acc else acc ++ [v])
    []

/-- `self_values - other_values` in `_indicator_diff`: the normalized new-side
values whose key does not occur among the normalized old-side keys. -/
def valuesDiff (self other : IndicatorDoc) (c e : String) : List EmittedValue :=
  let selfSet := dedupByKey ((vGet self c e).map normalizeStored)
  let otherKeys := (vGet other c e).map (fun y => keyOf (normalizeStored y))
  selfSet.filter (fun v => !otherKeys.any (fun k => decide (k = keyOf v)))

/-- `_indicator_meta` output without the optional `values` entry:
`emitter_type` and `reduce_type` are the fields of the `EmitterDef` found in
the class registry (`none` models the never-taken missing-attribute case). -/
structure IndicatorMeta where
  calculator : String
  emitter : String
  edef : Option EmitterDef
  deriving DecidableEq, Repr

/-- `_indicator_meta` output with the `values` entry, as used for
`indicator_changes`. -/
structure IndicatorChange where
  calculator : String
  emitter : String
  edef : Option EmitterDef
  values : List EmittedValue
  deriving DecidableEq, Repr

structure DiffReport where
  group_names : List String
  group_type_map : List (String × String)
  indicator_changes : List IndicatorChange
  all_indicators : List IndicatorMeta
  deriving DecidableEq, Repr

/-- `_indicator_diff(calc_name, emitter_names, other_doc)` (lines 407-443):
one change per emitter name, whose `values` are the key-set difference of the
normalized value sequences when the old document is present, and the
normalized new-side sequence verbatim when it is absent. -/
def indicator_diff (schema : Schema) (self : IndicatorDoc) (c : String)
    (ems : List String) (other : Option IndicatorDoc) : List IndicatorChange :=
  ems.map (fun e =>
    ⟨c, e, emitterLookup schema c e,
      match other with
      | some o => valuesDiff self o c e
      | none => (vGet self c e).map normalizeStored⟩)

/-- Lines 386-388 of `diff`: one `IndicatorMeta` per emitter slug of every
calculator slot of the current document, with no condition on the stored
value sequence. -/
def all_indicators_of (schema : Schema) (self : IndicatorDoc) : List IndicatorMeta :=
  ((calcNames self).map (fun c =>
    (dGet self c).map (fun p => (⟨c, p.1, emitterLookup schema c p.1⟩ : IndicatorMeta)))).flatten

def TYPE_STRING : String := "string"

def ALL_TYPES : List String := ["integer", "string", "date"]

/-- Lines 364-370 of `diff`: every declared group-by attribute missing from
`group_by_type_map` is defaulted to `string`; an explicitly-typed attribute
outside `ALL_TYPES` trips the `assert` (modelled as `none`). -/
def resolveTypeMap (names : List String) (m : List (String × String)) :
    Option (List (String × String)) :=
  names.foldlM
    (fun acc attrib =>
      match acc.lookup attrib with
      | none => some (acc ++ [(attrib, TYPE_STRING)])
      | some t => if ALL_TYPES.any (fun x => decide (x = t)) then some acc else none)
    m

/-- `IndicatorDocument.diff(other_doc)` (lines 304-390): `ok none` when no
calculator has a changed emitter slug (before any report object or group-type
resolution); otherwise resolve the group-by type map (`error` is its failed
`assert`) and build the report with the accumulated `indicator_changes` and
the full `all_indicators` inventory. -/
def IndicatorDoc.diff (schema : Schema) (self : IndicatorDoc)
    (other : Option IndicatorDoc) : Except Unit (Option DiffReport) :=
  let dk := diffKeys self other
  if dk.isEmpty then
    .ok none
  else
    match resolveTypeMap self.group_names self.group_by_type_map with
    | none => .error ()
    | some tm =>
      .ok (some
        { group_names := self.group_names
          group_type_map := tm
          indicator_changes :=
            (dk.map (fun p => indicator_diff schema self p.1 p.2 other)).flatten
          all_indicators := all_indicators_of schema self })

/-! ## Theorems for the claims -/

/-- **C6**: emitter normalization maps a bare date/identifier `v` to
`{date: v, value: 1, group_by: None}`, a `[date_or_key, value]` pair to
`{date: pair[0], value: pair[1], group_by: None}`, and keeps the fields of a
fully-specified dict, defaulting `value` to 1 when absent and wrapping a
non-list `group_by` into a one-element list. -/
theorem C6_normalization_shape :
    (∀ x : Scalar, normalize_shape (.bare x) = .ok ⟨.val x, 1, none⟩) ∧
    (∀ (x : Scalar) (n : Int), normalize_shape (.pair x n) = .ok ⟨.val x, n, none⟩) ∧
    (∀ (d : DateField) (v : Int) (l : List String),
      normalize_shape (.obj d (some v) (.list l)) = .ok ⟨d, v, some l⟩) ∧
    (∀ (d : DateField) (l : List String),
      normalize_shape (.obj d none (.list l)) = .ok ⟨d, 1, some l⟩) ∧
    (∀ (d : DateField) (v : Option Int) (g : String),
      normalize_shape (.obj d v (.scalar g)) = .ok ⟨d, v.getD 1, some [g]⟩) :=
  ⟨fun _ => rfl, fun _ _ => rfl, fun _ _ _ => rfl, fun _ _ => rfl, fun _ _ _ => rfl⟩

/-- **C10**: a dict-form raw value whose `group_by` is omitted or `None` is
rejected by the `assert v.get('group_by') is not None` for either emitter
kind, even though the bare and pair forms themselves produce
`group_by = None`. -/
theorem C10_dict_form_requires_group_by :
    (∀ (k : EmitterKind) (d : DateField) (v : Option Int),
      base_emitter_call k (.obj d v .absent) = .error .assertionError ∧
      base_emitter_call k (.obj d v .null) = .error .assertionError) ∧
    (∀ x : Scalar, (normalize_shape (.bare x)).map (fun s => s.group_by) = .ok none) ∧
    (∀ (x : Scalar) (n : Int),
      (normalize_shape (.pair x n)).map (fun s => s.group_by) = .ok none) :=
  ⟨fun _ _ _ => ⟨rfl, rfl⟩, fun _ => rfl, fun _ _ => rfl⟩

/-- **C5, counterexample**: normalization is not idempotent on its own
outputs.  Normalizing the bare date `0` yields the canonical value
`{date: 0, value: 1, group_by: None}`, but running normalization on that very
output again fails the dict-branch `group_by` assertion instead of
reproducing it. -/
theorem C5_counterexample :
    base_emitter_call .date (.bare (.dateV 0)) =
      .ok ⟨some 0, 1, none⟩ ∧
    base_emitter_call .date (toRawValue ⟨some 0, 1, none⟩) =
      .error .assertionError :=
  ⟨rfl, rfl⟩

/-- **C5, amended**: for every valid, already-normalized EmittedValue whose
`group_by` is non-`None`, renormalization reproduces it exactly; the
canonical-shape invariant is that `date` is a calendar date for date-kind
emitters and `None` for null-kind ones. -/
theorem C5_renormalization_idempotent (kind : EmitterKind) (v : EmittedValue)
    (l : List String) (hg : v.group_by = some l)
    (hdate : (kind = .date → ∃ d, v.date = some d) ∧ (kind = .null → v.date = none)) :
    base_emitter_call kind (toRawValue v) = .ok v := by
  obtain ⟨date, value, group_by⟩ := v
  simp only at hg
  subst hg
  cases kind with
  | date =>
    obtain ⟨d, hd⟩ := hdate.1 rfl
    simp only at hd
    subst hd
    rfl
  | null =>
    have hd := hdate.2 rfl
    simp only at hd
    subst hd
    rfl

/-- Witness for `C5_renormalization_idempotent` at
`v = {date: 3, value: 2, group_by: ["g"]}` on a date-kind emitter. -/
theorem C5_witness :
    (⟨some 3, 2, some ["g"]⟩ : EmittedValue).group_by = some ["g"] ∧
    base_emitter_call .date (toRawValue ⟨some 3, 2, some ["g"]⟩) =
      .ok ⟨some 3, 2, some ["g"]⟩ :=
  ⟨rfl, C5_renormalization_idempotent .date ⟨some 3, 2, some ["g"]⟩ ["g"] rfl
    ⟨fun _ => ⟨3, rfl⟩, fun h => nomatch h⟩⟩

/-- **C7**: constructing a calculator that owns a date-kind emitter with no
valid window duration fails at construction with the construction-time window
error (the spec's `InvalidWindowConfiguration`; the source raises
`NotImplementedError('window must be timedelta, ...')` there), while a
calculator whose emitters are all null-kind constructs successfully for any
window, including none at all. -/
theorem C7_window_checked_at_construction
    (es : List (String × EmitterDef)) (w : Option Int) :
    ((∃ p ∈ es, p.2.kind = .date) →
      Calculator.init es none = .error .invalidWindowConfiguration) ∧
    ((∀ p ∈ es, p.2.kind = .null) → ∃ c, Calculator.init es w = .ok c) := by
  constructor
  · rintro ⟨p, hp, hk⟩
    have hany : es.any (fun p => decide (p.2.kind = .date)) = true :=
      List.any_eq_true.mpr ⟨p, hp, by simp [hk]⟩
    simp [Calculator.init, hany]
  · intro h
    cases w with
    | some w => exact ⟨⟨es, some w⟩, rfl⟩
    | none =>
      refine ⟨⟨es, none⟩, ?_⟩
      have hany : es.any (fun p => decide (p.2.kind = .date)) = false := by
        simp only [List.any_eq_false, decide_eq_true_eq]
        intro p hp
        rw [h p hp]
        exact fun hc => nomatch hc
      simp [Calculator.init, hany]

/-- Witness for `C7_window_checked_at_construction`: a single date-kind
emitter with no window fails, a single null-kind emitter with no window
succeeds. -/
theorem C7_witness :
    (∃ p ∈ [("a", (⟨.date, "sum"⟩ : EmitterDef))], p.2.kind = .date) ∧
    Calculator.init [("a", ⟨.date, "sum"⟩)] none = .error .invalidWindowConfiguration ∧
    (∀ p ∈ [("b", (⟨.null, "sum"⟩ : EmitterDef))], p.2.kind = .null) ∧
    (∃ c, Calculator.init [("b", ⟨.null, "sum"⟩)] none = .ok c) :=
  ⟨by decide,
   (C7_window_checked_at_construction [("a", ⟨.date, "sum"⟩)] none).1 (by decide),
   by decide,
   (C7_window_checked_at_construction [("b", ⟨.null, "sum"⟩)] none).2 (by decide)⟩

/-- **C9**: the `reduce=True` result of `get_result` is the scalar `0` for
any emitter (of either kind) whose query matches no rows in the index — an
empty result is the value zero, not an error. -/
theorem C9_empty_result_is_zero (view : ViewQuery → List ViewRow)
    (docType slug : String) (c : Calculator) (now : Int) (key : List String)
    (n : String) (ed : EmitterDef)
    (hmem : (n, ed) ∈ c.emitters)
    (hq : view (emitterQuery docType key slug n ed.kind (c.window.getD 0) now) = []) :
    (n, 0) ∈ get_result_reduce view docType slug c now key := by
  unfold get_result_reduce
  refine List.mem_map.mpr ⟨(n, ed), hmem, ?_⟩
  simp only [hq]

/-- Witness for `C9_empty_result_is_zero`: a one-emitter calculator against a
view with no rows. -/
theorem C9_witness :
    ("e", (⟨.date, "count"⟩ : EmitterDef)) ∈
      (⟨[("e", ⟨.date, "count"⟩)], some 7⟩ : Calculator).emitters ∧
    (fun (_ : ViewQuery) => ([] : List ViewRow))
        (emitterQuery "T" [] "s" "e" EmitterKind.date
          ((⟨[("e", ⟨.date, "count"⟩)], some 7⟩ : Calculator).window.getD 0) 100) = [] ∧
    ("e", 0) ∈ get_result_reduce (fun _ => []) "T" "s"
      ⟨[("e", ⟨.date, "count"⟩)], some 7⟩ 100 [] :=
  ⟨by decide, rfl,
   C9_empty_result_is_zero (fun _ => []) "T" "s" ⟨[("e", ⟨.date, "count"⟩)], some 7⟩
     100 [] "e" ⟨.date, "count"⟩ (by decide) rfl⟩

/-- Evaluating the `reduce=True` fold of `aggregate_results` at one slug:
the `defaultdict(int)` accumulator holds, per slug, the sum of the values
yielded for that slug so far. -/
theorem foldl_updateSum (pairs : List (String × Int)) (z : String → Int) (s : String) :
    (pairs.foldl updateSum z) s
      = z s + ((pairs.filter (fun p => decide (s = p.1))).map (fun p => p.2)).sum := by
  induction pairs generalizing z with
  | nil => simp
  | cons p ps ih =>
    rw [List.foldl_cons, ih]
    by_cases h : s = p.1
    · simp [updateSum, h, List.filter_cons]
      ring
    · simp [updateSum, h, List.filter_cons]

/-- Evaluating the `reduce=False` fold of `aggregate_results` at one slug:
the `defaultdict(set)` accumulator holds, per slug, the union of the
identifier lists yielded for that slug so far. -/
theorem foldl_updateIds (pairs : List (String × List String))
    (z : String → Finset String) (s : String) :
    (pairs.foldl updateIds z) s
      = z s ∪ ((pairs.filter (fun p => decide (s = p.1))).map (fun p => p.2)).flatten.toFinset := by
  induction pairs generalizing z with
  | nil => simp
  | cons p ps ih =>
    rw [List.foldl_cons, ih]
    by_cases h : s = p.1
    · simp [updateIds, h, List.filter_cons, List.toFinset_append, Finset.union_assoc]
    · simp [updateIds, h, List.filter_cons]

/-- **C8**: `aggregate_results` is invariant under permutation of the input
keys — with `reduce=True` each emitter slug gets the same summed scalar, and
with `reduce=False` each slug gets the same set of identifiers (duplicates
across keys collapsed by the `defaultdict(set)` union). -/
theorem C8_aggregate_results_perm_invariant
    (get_result_r : List String → List (String × Int))
    (get_result_i : List String → List (String × List String))
    (keys keys2 : List (List String)) (hp : keys.Perm keys2) (slug : String) :
    aggregate_results_sum get_result_r keys slug
        = aggregate_results_sum get_result_r keys2 slug ∧
    aggregate_results_ids get_result_i keys slug
        = aggregate_results_ids get_result_i keys2 slug := by
  constructor
  · have h1 := List.Perm.sum_eq (List.Perm.map (fun p => p.2)
      (List.Perm.filter (fun p => decide (slug = p.1)) (hp.map get_result_r).flatten))
    rw [aggregate_results_sum, aggregate_results_sum, foldl_updateSum, foldl_updateSum, h1]
  · have h2 := List.toFinset_eq_of_perm _ _ ((List.Perm.map (fun p => p.2)
      (List.Perm.filter (fun p => decide (slug = p.1))
        (hp.map get_result_i).flatten)).flatten)
    rw [aggregate_results_ids, aggregate_results_ids, foldl_updateIds, foldl_updateIds, h2]

/-- Witness for `C8_aggregate_results_perm_invariant` on the two-key list
`[["a"], ["b"]]` and its transposition. -/
theorem C8_witness :
    ([["a"], ["b"]] : List (List String)).Perm [["b"], ["a"]] ∧
    aggregate_results_sum (fun k => [("t", (k.length : Int))]) [["a"], ["b"]] "t"
        = aggregate_results_sum (fun k => [("t", (k.length : Int))]) [["b"], ["a"]] "t" ∧
    aggregate_results_ids (fun k => [("t", k)]) [["a"], ["b"]] "t"
        = aggregate_results_ids (fun k => [("t", k)]) [["b"], ["a"]] "t" :=
  ⟨List.Perm.swap ["b"] ["a"] [],
   C8_aggregate_results_perm_invariant (fun k => [("t", (k.length : Int))])
     (fun k => [("t", k)]) [["a"], ["b"]] [["b"], ["a"]]
     (List.Perm.swap ["b"] ["a"] []) "t"⟩

/-! ### Helper lemmas about the diff engine -/

/-- Association-list lookup agrees with membership when the keys are distinct
(dict semantics). -/
theorem lookup_of_nodupkeys {α : Type} (l : List (String × α)) (k : String) (a : α)
    (hn : (l.map (fun p => p.1)).Nodup) (hm : (k, a) ∈ l) :
    l.lookup k = some a := by
  induction l with
  | nil => cases hm
  | cons p t ih =>
    obtain ⟨p1, p2⟩ := p
    rw [List.map_cons, List.nodup_cons] at hn
    rcases List.mem_cons.mp hm with heq | hmt
    · injection heq with h1 h2
      subst h1
      subst h2
      simp [List.lookup]
    · have hk : (k == p1) = false := by
        apply beq_eq_false_iff_ne.mpr
        intro hk
        apply hn.1
        rw [← hk]
        exact List.mem_map.mpr ⟨(k, a), hmt, rfl⟩
      rw [List.lookup_cons, hk]
      exact ih hn.2 hmt

/-- Iterating `self._calculators.keys()` and indexing `self[calc_name]` is
the same as iterating the calculator slots directly, for a well-formed
document. -/
theorem calcNames_map_dGet {β : Type} (D : IndicatorDoc)
    (hn : (D.calcs.map (fun p => p.1)).Nodup)
    (f : String → List (String × List StoredValue) → β) :
    (calcNames D).map (fun c => f c (dGet D c)) = D.calcs.map (fun p => f p.1 p.2) := by
  rw [calcNames, List.map_map]
  apply List.map_congr_left
  intro p hp
  simp only [Function.comp]
  rw [dGet, lookup_of_nodupkeys D.calcs p.1 p.2 hn hp]
  rfl

theorem mem_dedupByKey_aux (l acc : List EmittedValue) (x : EmittedValue)
    (hx : x ∈ l.foldl
      (fun acc v =>
        if acc.any (fun w => decide (keyOf w = keyOf v)) then acc else acc ++ [v])
      acc) :
    x ∈ acc ∨ x ∈ l := by
  induction l generalizing acc with
  | nil => exact Or.inl hx
  | cons v vs ih =>
    rw [List.foldl_cons] at hx
    rcases ih _ hx with h | h
    · by_cases hc : acc.any (fun w => decide (keyOf w = keyOf v))
      · rw [if_pos hc] at h
        exact Or.inl h
      · rw [if_neg hc] at h
        rcases List.mem_append.mp h with h | h
        · exact Or.inl h
        · exact Or.inr (List.mem_cons.mpr (Or.inl (List.mem_singleton.mp h)))
    · exact Or.inr (List.mem_cons.mpr (Or.inr h))

/-- Every member of the Python value set is one of the normalized stored
values it was built from. -/
theorem mem_of_mem_dedupByKey (l : List EmittedValue) (x : EmittedValue)
    (hx : x ∈ dedupByKey l) : x ∈ l := by
  rcases mem_dedupByKey_aux l [] x hx with h | h
  · cases h
  · exact h

/-- `_shallow_dict_diff` of a dict against itself is falsy: `None` for the
empty dict and the empty key set otherwise. -/
theorem shallow_dict_diff_self (x : List (String × List StoredValue)) :
    shallow_dict_diff x x = none ∨ shallow_dict_diff x x = some [] := by
  cases hx : x.isEmpty with
  | true =>
    left
    unfold shallow_dict_diff
    rw [hx]
    rfl
  | false =>
    right
    have hsame : ∀ (l : List String),
        l.filter (fun k => !l.any (fun a => decide (a = k))) = [] := by
      intro l
      apply List.filter_eq_nil_iff.mpr
      intro k hk
      have : l.any (fun a => decide (a = k)) = true :=
        List.any_eq_true.mpr ⟨k, hk, by simp⟩
      simp [this]
    have hch : (x.map (fun p => p.1)).filter (fun k =>
        (x.map (fun p => p.1)).any (fun a => decide (a = k))
          && decide (x.lookup k ≠ x.lookup k)) = [] := by
      apply List.filter_eq_nil_iff.mpr
      intro k _
      simp
    unfold shallow_dict_diff
    rw [hx]
    simp only [Bool.and_self, Bool.or_self, Bool.false_eq_true, if_false, hsame, hch,
      List.append_nil, List.nil_append]

/-- **C2**: diffing a snapshot against an identical snapshot always returns
absent (`None`), via the early return that precedes any report
construction. -/
theorem C2_diff_identical_is_none (schema : Schema) (D : IndicatorDoc) :
    IndicatorDoc.diff schema D (some D) = .ok none := by
  have hdk : diffKeys D (some D) = [] := by
    apply List.filterMap_eq_nil_iff.mpr
    intro c _
    rcases shallow_dict_diff_self (dGet D c) with h | h
    · simp [h]
    · simp [h]
  unfold IndicatorDoc.diff
  rw [hdk]
  rfl

/-- Whenever `diff` returns a report, its `indicator_changes` and
`all_indicators` are the accumulated per-calculator change lists and the full
inventory (shared elimination step for the report-shape claims). -/
theorem diff_ok_some_elim (schema : Schema) (self : IndicatorDoc)
    (other : Option IndicatorDoc) (r : DiffReport)
    (hd : IndicatorDoc.diff schema self other = .ok (some r)) :
    r.indicator_changes = ((diffKeys self other).map
        (fun p => indicator_diff schema self p.1 p.2 other)).flatten ∧
    r.all_indicators = all_indicators_of schema self := by
  unfold IndicatorDoc.diff at hd
  by_cases hdk : (diffKeys self other).isEmpty
  · rw [if_pos hdk] at hd
    simp at hd
  · rw [if_neg hdk] at hd
    cases hres : resolveTypeMap self.group_names self.group_by_type_map with
    | none =>
      rw [hres] at hd
      simp at hd
    | some tm =>
      rw [hres] at hd
      simp only [Except.ok.injEq, Option.some.injEq] at hd
      rw [← hd]
      exact ⟨rfl, rfl⟩

/-- **C1**: every entry in the `values` of an `IndicatorChange` produced by
diffing against a present previous snapshot is the normalization of some
stored value of the new document for that (calculator, emitter), and no
stored value of the old document for the same emitter has an equal
`(date, value, tuple(group_by) or None)` key — string dates being parsed
back to calendar dates before comparison (`normalizeStored`). -/
theorem C1_values_added_only (schema : Schema) (self other : IndicatorDoc)
    (r : DiffReport) (hd : IndicatorDoc.diff schema self (some other) = .ok (some r))
    (ch : IndicatorChange) (hch : ch ∈ r.indicator_changes)
    (v : EmittedValue) (hv : v ∈ ch.values) :
    (∃ x ∈ vGet self ch.calculator ch.emitter, normalizeStored x = v) ∧
    (∀ y ∈ vGet other ch.calculator ch.emitter,
      keyOf (normalizeStored y) ≠ keyOf v) := by
  rw [(diff_ok_some_elim schema self (some other) r hd).1] at hch
  obtain ⟨L, hL, hchL⟩ := List.mem_flatten.mp hch
  obtain ⟨p, _, hpL⟩ := List.mem_map.mp hL
  rw [← hpL] at hchL
  obtain ⟨e, _, hche⟩ := List.mem_map.mp hchL
  have hcalc : ch.calculator = p.1 := by rw [← hche]
  have hemit : ch.emitter = e := by rw [← hche]
  have hvals : ch.values = valuesDiff self other p.1 e := by rw [← hche]
  rw [hvals] at hv
  rw [hcalc, hemit]
  simp only [valuesDiff] at hv
  have hfil := List.mem_filter.mp hv
  constructor
  · have hmem := mem_of_mem_dedupByKey ((vGet self p.1 e).map normalizeStored) v hfil.1
    obtain ⟨x, hx, hxv⟩ := List.mem_map.mp hmem
    exact ⟨x, hx, hxv⟩
  · intro y hy
    have hnotany := hfil.2
    simp only [Bool.not_eq_true', List.any_eq_false] at hnotany
    have := hnotany (keyOf (normalizeStored y))
      (List.mem_map.mpr ⟨y, hy, rfl⟩)
    simpa using this

/-- A one-calculator, one-emitter schema used by concrete witnesses. -/
def schemaW : Schema := [("c", [("e", ⟨.date, "count"⟩)])]

def newDocW : IndicatorDoc :=
  ⟨[("c", [("e", [.obj (.dateD 5) 1 none])])], [], []⟩

def oldDocW : IndicatorDoc :=
  ⟨[("c", [("e", [])])], [], []⟩

def reportW : DiffReport :=
  ⟨[], [],
   [⟨"c", "e", some ⟨.date, "count"⟩, [⟨some 5, 1, none⟩]⟩],
   [⟨"c", "e", some ⟨.date, "count"⟩⟩]⟩

def changeW : IndicatorChange :=
  ⟨"c", "e", some ⟨.date, "count"⟩, [⟨some 5, 1, none⟩]⟩

/-- Witness for `C1_values_added_only`: the single reported value
`{date: 5, value: 1, group_by: None}` is the normalization of a stored new
value and is key-absent from the (empty) old sequence. -/
theorem C1_witness :
    IndicatorDoc.diff schemaW newDocW (some oldDocW) = .ok (some reportW) ∧
    changeW ∈ reportW.indicator_changes ∧
    (⟨some 5, 1, none⟩ : EmittedValue) ∈ changeW.values ∧
    ((∃ x ∈ vGet newDocW changeW.calculator changeW.emitter,
        normalizeStored x = ⟨some 5, 1, none⟩) ∧
      (∀ y ∈ vGet oldDocW changeW.calculator changeW.emitter,
        keyOf (normalizeStored y) ≠ keyOf ⟨some 5, 1, none⟩)) :=
  ⟨by rfl, by decide, by decide,
   C1_values_added_only schemaW newDocW oldDocW reportW (by rfl) changeW
     (by decide) ⟨some 5, 1, none⟩ (by decide)⟩

/-- Per-calculator entries whose changed-emitter list would be empty are
dropped by the truthiness test before `diff_keys`, and contribute nothing to
the concatenated change list. -/
theorem flatten_map_guardFilterMap {α β γ : Type} (l : List α) (E : α → List β)
    (mk : α → β → γ) :
    ((l.filterMap (fun a => if (E a).isEmpty then none else some (a, E a))).map
        (fun p => p.2.map (mk p.1))).flatten
      = (l.map (fun a => (E a).map (mk a))).flatten := by
  induction l with
  | nil => rfl
  | cons a t ih =>
    by_cases ha : (E a).isEmpty
    · have hEa : E a = [] := List.isEmpty_iff.mp ha
      simp [List.filterMap_cons, hEa, ih]
    · simp [List.filterMap_cons, ha, ih]

/-- **C3**: diffing a document against an absent previous snapshot yields a
report whenever some stored value sequence is non-empty, and its
`indicator_changes` are exactly the (calculator, emitter) pairs with
non-empty stored sequences — each carrying every stored value, normalized,
exactly once (`values` is the pointwise normalization of the stored
sequence). -/
theorem C3_new_document_diff (schema : Schema) (D : IndicatorDoc) (hwf : D.WF)
    (hres : resolveTypeMap D.group_names D.group_by_type_map ≠ none)
    (hne : ∃ p ∈ D.calcs, ∃ q ∈ p.2, q.2 ≠ []) :
    ∃ r, IndicatorDoc.diff schema D none = .ok (some r) ∧
      r.indicator_changes =
        (D.calcs.map (fun p => (p.2.filter (fun q => !q.2.isEmpty)).map
          (fun q => (⟨p.1, q.1, emitterLookup schema p.1 q.1,
            q.2.map normalizeStored⟩ : IndicatorChange)))).flatten := by
  obtain ⟨p0, hp0, q0, hq0, hne0⟩ := hne
  have hdget : dGet D p0.1 = p0.2 := by
    rw [dGet, lookup_of_nodupkeys D.calcs p0.1 p0.2 hwf.1 hp0]
    rfl
  have hEne : (((dGet D p0.1).filter (fun p => !p.2.isEmpty)).map (fun p => p.1)) ≠ [] := by
    rw [hdget]
    intro hc
    rw [List.map_eq_nil_iff] at hc
    have hq0f : q0 ∈ p0.2.filter (fun p => !p.2.isEmpty) :=
      List.mem_filter.mpr ⟨hq0, by simp [hne0]⟩
    rw [hc] at hq0f
    cases hq0f
  have hmemdk : (p0.1, ((dGet D p0.1).filter (fun p => !p.2.isEmpty)).map (fun p => p.1))
      ∈ diffKeys D none := by
    rw [diffKeys]
    apply List.mem_filterMap.mpr
    refine ⟨p0.1, List.mem_map.mpr ⟨p0, hp0, rfl⟩, ?_⟩
    have hfalse : ((((dGet D p0.1).filter (fun p => !p.2.isEmpty)).map
        (fun p => p.1))).isEmpty = false := List.isEmpty_eq_false.mpr hEne
    simp [hfalse]
  have hdkne : (diffKeys D none).isEmpty = false :=
    List.isEmpty_eq_false.mpr (List.ne_nil_of_mem hmemdk)
  have h1 := flatten_map_guardFilterMap (calcNames D)
    (fun c => ((dGet D c).filter (fun p => !p.2.isEmpty)).map (fun p => p.1))
    (fun c e => (⟨c, e, emitterLookup schema c e,
      (vGet D c e).map normalizeStored⟩ : IndicatorChange))
  have h2 := congrArg List.flatten (calcNames_map_dGet D hwf.1 (fun c data =>
    ((data.filter (fun p => !p.2.isEmpty)).map (fun p => p.1)).map
      (fun e => (⟨c, e, emitterLookup schema c e,
        (vGet D c e).map normalizeStored⟩ : IndicatorChange))))
  have h3 : ∀ p ∈ D.calcs,
      ((p.2.filter (fun q => !q.2.isEmpty)).map (fun q => q.1)).map
        (fun e => (⟨p.1, e, emitterLookup schema p.1 e,
          (vGet D p.1 e).map normalizeStored⟩ : IndicatorChange))
      = (p.2.filter (fun q => !q.2.isEmpty)).map
        (fun q => (⟨p.1, q.1, emitterLookup schema p.1 q.1,
          q.2.map normalizeStored⟩ : IndicatorChange)) := by
    intro p hp
    rw [List.map_map]
    apply List.map_congr_left
    intro q hq
    simp only [Function.comp]
    have hq2 : q ∈ p.2 := (List.mem_filter.mp hq).1
    have hvget : vGet D p.1 q.1 = q.2 := by
      rw [vGet, dGet, lookup_of_nodupkeys D.calcs p.1 p.2 hwf.1 hp]
      simp only [Option.getD_some]
      rw [lookup_of_nodupkeys p.2 q.1 q.2 (hwf.2 p hp) hq2]
      rfl
    rw [hvget]
  cases hres2 : resolveTypeMap D.group_names D.group_by_type_map with
  | none => exact absurd hres2 hres
  | some tm =>
    refine ⟨{ group_names := D.group_names, group_type_map := tm,
              indicator_changes := ((diffKeys D none).map
                (fun p => indicator_diff schema D p.1 p.2 none)).flatten,
              all_indicators := all_indicators_of schema D }, ?_, ?_⟩
    · unfold IndicatorDoc.diff
      rw [hres2]
      simp [hdkne]
    · show ((diffKeys D none).map (fun p => indicator_diff schema D p.1 p.2 none)).flatten = _
      exact h1.trans (h2.trans (congrArg List.flatten (List.map_congr_left h3)))

theorem newDocW_wf : newDocW.WF := by
  unfold IndicatorDoc.WF
  decide

/-- Witness for `C3_new_document_diff` on a one-calculator, one-emitter
document with a single stored value. -/
theorem C3_witness :
    newDocW.WF ∧
    resolveTypeMap newDocW.group_names newDocW.group_by_type_map ≠ none ∧
    (∃ p ∈ newDocW.calcs, ∃ q ∈ p.2, q.2 ≠ []) ∧
    (∃ r, IndicatorDoc.diff schemaW newDocW none = .ok (some r) ∧
      r.indicator_changes =
        (newDocW.calcs.map (fun p => (p.2.filter (fun q => !q.2.isEmpty)).map
          (fun q => (⟨p.1, q.1, emitterLookup schemaW p.1 q.1,
            q.2.map normalizeStored⟩ : IndicatorChange)))).flatten) :=
  ⟨newDocW_wf, by decide, by decide,
   C3_new_document_diff schemaW newDocW newDocW_wf (by decide) (by decide)⟩

/-- The schema and document refuting C4: calculator `c` owns `e1` (one stored
value) and `e2` (empty stored sequence). -/
def schemaC4 : Schema :=
  [("c", [("e1", ⟨.date, "count"⟩), ("e2", ⟨.date, "count"⟩)])]

def docC4 : IndicatorDoc :=
  ⟨[("c", [("e1", [.obj (.dateD 0) 1 none]), ("e2", [])])], [], []⟩

/-- **C4, counterexample**: `e2`'s current value sequence is empty, yet the
report produced by `diff` lists `e2` in `all_indicators` — the inventory is
not restricted to emitters with non-empty current sequences. -/
theorem C4_counterexample :
    vGet docC4 "c" "e2" = [] ∧
    (match IndicatorDoc.diff schemaC4 docC4 none with
     | .ok (some r) => r.all_indicators.any (fun m =>
         decide (m.calculator = "c") && decide (m.emitter = "e2"))
     | _ => false) = true :=
  ⟨rfl, rfl⟩

/-- **C4, amended**: whenever `diff` produces a report, `all_indicators`
holds exactly one `IndicatorMeta` per emitter slug of every calculator slot
of the current document — regardless of whether that emitter's current value
sequence is empty: its (calculator, emitter) projection is precisely the
concatenation of the stored emitter slug lists. -/
theorem C4_all_indicators_full_inventory (schema : Schema) (D : IndicatorDoc)
    (old : Option IndicatorDoc) (r : DiffReport) (hwf : D.WF)
    (hd : IndicatorDoc.diff schema D old = .ok (some r)) :
    r.all_indicators.map (fun m => (m.calculator, m.emitter))
      = (D.calcs.map (fun p => p.2.map (fun q => (p.1, q.1)))).flatten := by
  rw [(diff_ok_some_elim schema D old r hd).2]
  rw [all_indicators_of, List.map_flatten, List.map_map]
  refine Eq.trans (congrArg List.flatten (List.map_congr_left ?_))
    (congrArg List.flatten
      (calcNames_map_dGet D hwf.1 (fun c data => data.map (fun q => (c, q.1)))))
  intro c _
  simp only [Function.comp, List.map_map]
  rfl

theorem docC4_wf : docC4.WF := by
  unfold IndicatorDoc.WF
  decide

def reportC4 : DiffReport :=
  ⟨[], [],
   [⟨"c", "e1", some ⟨.date, "count"⟩, [⟨some 0, 1, none⟩]⟩],
   [⟨"c", "e1", some ⟨.date, "count"⟩⟩, ⟨"c", "e2", some ⟨.date, "count"⟩⟩]⟩

/-- Witness for `C4_all_indicators_full_inventory` on the two-emitter
document. -/
theorem C4_witness :
    docC4.WF ∧
    IndicatorDoc.diff schemaC4 docC4 none = .ok (some reportC4) ∧
    reportC4.all_indicators.map (fun m => (m.calculator, m.emitter))
      = (docC4.calcs.map (fun p => p.2.map (fun q => (p.1, q.1)))).flatten :=
  ⟨docC4_wf, by rfl,
   C4_all_indicators_full_inventory schemaC4 docC4 none reportC4 docC4_wf (by rfl)⟩

end Fluff
